import Mathlib

/-!
Shallow embedding of `bevy_smooth_pixel_camera` (files `src/viewport.rs`,
`src/components.rs`, `src/systems.rs`) and verification of the frozen claims.

Modelling conventions:
* `u32` values are `Nat` with explicit wrapping (`% 2^32`) where the source can
  overflow (release-mode Rust semantics), and saturating casts for `f32 as u32`.
* `f32` values are modelled as exact rationals `ℚ`; all claim inputs are exactly
  representable, and no claim probes floating-point rounding.
* Rust `u32` division by zero panics; fallible paths return `Option`/`Except`,
  with `Except.error` standing for a Rust panic of the surrounding system.
-/

/- Suppress unused-variable linting in faithful translations that bind fields
the claims never read. -/
set_option linter.unusedVariables false

/-- Exclusive upper bound of `u32`. -/
def U32LIM : Nat := 4294967296

/-- Largest `u32` value. -/
def U32MAX : Nat := 4294967295

/-- Rust `f32 as u32` cast: truncation toward zero with saturation at `0` and
`u32::MAX`. Modelled on exact rationals. -/
def u32cast (q : ℚ) : Nat := min (Int.toNat ⌊q⌋) U32MAX

/-- Rust release-mode `u32` multiplication (wraps on overflow). -/
def u32mul (a b : Nat) : Nat := (a * b) % U32LIM

/-- Rust release-mode `u32` addition (wraps on overflow). -/
def u32add (a b : Nat) : Nat := (a + b) % U32LIM

/-- Rust release-mode `u32` subtraction (wraps on underflow); defined for
subtrahends `b ≤ U32LIM`. -/
def u32sub (a b : Nat) : Nat := (a + (U32LIM - b)) % U32LIM

/-- Rust `u32` division: floor division, panicking (`none`) on a zero divisor. -/
def u32div (a b : Nat) : Option Nat := if b = 0 then none else some (a / b)

/-- Truncation of a rational toward zero, the rounding performed by Rust's
`f32::trunc` and by `f32 as u32` before saturation. -/
def truncQ (q : ℚ) : ℤ := if 0 ≤ q then ⌊q⌋ else ⌈q⌉

/-- Rust's `%` on floats: remainder with the sign of the dividend,
`x % m = x - m * trunc (x / m)`. -/
def rustRem (x m : ℚ) : ℚ := x - m * (truncQ (x / m) : ℚ)

/-- Saturating `f32 as u32` cast applied after `f32::ceil`, as in the
`PixelFixed` arm of `ViewportSize::calculate`. -/
def ceilCast (q : ℚ) : Nat := min (Int.toNat ⌈q⌉) U32MAX

/-- Bevy `WindowResolution`: logical window size in (floating point) pixels,
modelled exactly. -/
structure WindowResolution where
  width : ℚ
  height : ℚ
deriving DecidableEq, Repr

/-- Bevy `Extent3d` as used by the crate (`depth_or_array_layers` always 1). -/
structure Extent3d where
  width : Nat
  height : Nat
  depth_or_array_layers : Nat
deriving DecidableEq, Repr

/-- Bevy `ClearColorConfig`; the crate only distinguishes `None`, the default,
and a custom color (identified abstractly by a tag). -/
inductive ClearColorConfig where
  | defaultColor : ClearColorConfig
  | custom (color : Nat) : ClearColorConfig
  | noColor : ClearColorConfig
deriving DecidableEq, Repr

/-- `FitMode` from `src/viewport.rs`: the way the viewport scales to fit the
window. -/
inductive FitMode where
  | stretch : FitMode
  | crop : FitMode
  | fit (color : ClearColorConfig) : FitMode
deriving DecidableEq, Repr

/-- `ViewportSize` from `src/viewport.rs`: the methods of calculating the
viewport's size. -/
inductive ViewportSize where
  | pixelFixed (scaling : Nat) : ViewportSize
  | fixed (width height : Nat) (fit : FitMode) : ViewportSize
  | fixedWidth (width : Nat) : ViewportSize
  | fixedHeight (height : Nat) : ViewportSize
  | autoMin (min_width min_height : Nat) : ViewportSize
  | autoMax (max_width max_height : Nat) : ViewportSize
  | custom (func : WindowResolution → Nat × Nat) (fit : FitMode) : ViewportSize

/-- `ViewportSize::calculate` from `src/viewport.rs` lines 74-159.
`none` models the Rust panic on `u32` division by zero (window dimension
truncating to 0). In the `PixelFixed` arm a zero scaling makes the `f32`
division produce `±inf`/`NaN`, which `as u32` saturates to `u32::MAX`
(positive width), or `0` (zero or negative width); that is spelled out in the
`scaling = 0` branch. -/
def ViewportSize.calculate (vs : ViewportSize) (window_resolution : WindowResolution) :
    Option Extent3d :=
  let window_width := window_resolution.width
  let window_height := window_resolution.height
  match vs with
  | .pixelFixed scaling =>
    if scaling = 0 then
      some ⟨if 0 < window_width then U32MAX else 0,
            if 0 < window_height then U32MAX else 0, 1⟩
    else
      some ⟨ceilCast (window_width / (scaling : ℚ)),
            ceilCast (window_height / (scaling : ℚ)), 1⟩
  | .fixed width height _ => some ⟨width, height, 1⟩
  | .fixedWidth width =>
    match u32div (u32mul (u32cast window_height) width) (u32cast window_width) with
    | none => none
    | some h => some ⟨width, h, 1⟩
  | .fixedHeight height =>
    match u32div (u32mul (u32cast window_width) height) (u32cast window_height) with
    | none => none
    | some w => some ⟨w, height, 1⟩
  | .autoMin min_width min_height =>
    if u32mul (u32cast window_width) min_height > u32mul min_width (u32cast window_height) then
      match u32div (u32mul (u32cast window_width) min_height) (u32cast window_height) with
      | none => none
      | some w => some ⟨w, min_height, 1⟩
    else
      match u32div (u32mul (u32cast window_height) min_width) (u32cast window_width) with
      | none => none
      | some h => some ⟨min_width, h, 1⟩
  | .autoMax max_width max_height =>
    if u32mul (u32cast window_width) max_height < u32mul max_width (u32cast window_height) then
      match u32div (u32mul (u32cast window_width) max_height) (u32cast window_height) with
      | none => none
      | some w => some ⟨w, max_height, 1⟩
    else
      match u32div (u32mul (u32cast window_height) max_width) (u32cast window_width) with
      | none => none
      | some h => some ⟨max_width, h, 1⟩
  | .custom func _ =>
    let wh := func window_resolution
    some ⟨wh.1, wh.2, 1⟩

/-- `ViewportSize::clear_color` from `src/viewport.rs` lines 162-176. -/
def ViewportSize.clear_color (vs : ViewportSize) : ClearColorConfig :=
  match vs with
  | .fixed _ _ (.fit config) => config
  | .custom _ (.fit config) => config
  | _ => .noColor

/-- Bevy `RenderLayers` for this crate's usage: a `u32` bitmask of layers. -/
abbrev RenderLayers := Nat

/-- `RenderLayers::layer(n)`: the mask holding only layer `n`. -/
def RenderLayers.layer (n : Nat) : RenderLayers := 1 <<< n

/-- `RenderLayers::none()`: the empty mask. -/
def RenderLayers.noLayers : RenderLayers := 0

/-- `RenderLayers::intersects`: the two masks share a layer. -/
def RenderLayers.intersects (a b : RenderLayers) : Bool :=
  (a &&& b) ≠ 0

/-- `PixelCamera` component from `src/components.rs`. -/
structure PixelCamera where
  viewport_size : ViewportSize
  subpixel_pos : ℚ × ℚ
  viewport_order : Int
  viewport_layer : RenderLayers
  smoothing : Bool

/-- Bevy `WindowRef`: the window a camera renders to. -/
inductive WindowRef where
  | primary : WindowRef
  | entity (e : Nat) : WindowRef
deriving DecidableEq, Repr

/-- Bevy `RenderTarget` (cases used by `src/systems.rs`). -/
inductive RenderTarget where
  | window (wref : WindowRef) : RenderTarget
  | image (handle : Nat) : RenderTarget
  | textureView : RenderTarget
deriving DecidableEq, Repr

/-- Bevy `Window`, reduced to what `update_viewport_size` reads: its
resolution and its change-detection flag (`Ref::is_changed`). -/
structure Window where
  resolution : WindowResolution
  changed : Bool
deriving DecidableEq, Repr

/-- Bevy `ScalingMode::Fixed` as produced by the crate (the only variant it
constructs). -/
inductive ScalingMode where
  | fixedWH (width height : ℚ) : ScalingMode
deriving DecidableEq, Repr

/-- Image assets (`Assets<Image>`): association list from handle to size. -/
def ImageAssets := List (Nat × Extent3d)

instance : DecidableEq ImageAssets := inferInstanceAs (DecidableEq (List (Nat × Extent3d)))

/-- Look an image up by handle (`Assets::get`). -/
def lookupImage (imgs : ImageAssets) (handle : Nat) : Option Extent3d :=
  match imgs with
  | [] => none
  | (h, sz) :: rest => if h = handle then some sz else lookupImage rest handle

/-- Resize the image stored at `handle` (`Image::resize` through
`Assets::get_mut`). -/
def setImage (imgs : ImageAssets) (handle : Nat) (sz : Extent3d) : ImageAssets :=
  match imgs with
  | [] => []
  | (h, old) :: rest =>
    if h = handle then (h, sz) :: rest else (h, old) :: setImage rest handle sz

/-- World-level state read and written by `update_viewport_size`. -/
structure WorldState where
  images : ImageAssets
  primaryWindow : Option Window
  windows : List (Nat × Window)
deriving DecidableEq

/-- Resolve a `WindowRef` against the world's windows, as the `match window_ref`
block of `update_viewport_size` does (`none` models both `get_single()` and
`windows.get(entity)` failures, which take the logged-error `continue`
branches). -/
def resolveWindow (st : WorldState) (wref : WindowRef) : Option Window :=
  match wref with
  | .primary => st.primaryWindow
  | .entity e => (st.windows.filter (fun p => p.1 = e)).head?.map Prod.snd

/-- Data persisted by `init_camera` for one successfully bound `PixelCamera`:
the render-target image it creates, and the spawned viewport camera's order,
clear color and fixed-scaling projection (`ScalingMode::Fixed` with both axes
two less than the image, in `u32` arithmetic). -/
structure Binding where
  imageSize : Extent3d
  viewportOrder : Int
  clearColor : ClearColorConfig
  scalingWidth : ℚ
  scalingHeight : ℚ
deriving DecidableEq, Repr

/-- One entry of `init_camera`'s query: the `PixelCamera`, the world camera's
order, and the world camera's optional `RenderLayers` component. -/
structure InitEntry where
  cam : PixelCamera
  cameraOrder : Int
  world_layer : Option RenderLayers

/-- Per-camera result of one `init_camera` pass. `configError` is a logged
validation error (the system `return`s); `unprocessed` marks cameras the
aborted iteration never reached. -/
inductive InitResult where
  | bound (b : Binding) : InitResult
  | configError : InitResult
  | unprocessed : InitResult
deriving DecidableEq, Repr

/-- Validation block of `init_camera` (`src/systems.rs` lines 35-51): returns
`true` when the camera passes all configuration checks. When the world camera
has an explicit `RenderLayers` component only the intersection check runs;
the layer-0 and empty-mask checks run only in the `else` chain for cameras
without one. -/
def validateEntry (e : InitEntry) : Bool :=
  (match e.world_layer with
   | some world_layer => !(RenderLayers.intersects world_layer e.cam.viewport_layer)
   | none =>
     !(RenderLayers.intersects e.cam.viewport_layer (RenderLayers.layer 0)) &&
     !(e.cam.viewport_layer = RenderLayers.noLayers : Bool))
  && !(e.cameraOrder ≥ e.cam.viewport_order : Bool)

/-- Smoothing border applied to a freshly computed viewport size: both
`init_camera` (lines 54-57) and `update_viewport_size` (lines 250-253) add 2
to each axis when `smoothing` is set (`u32` addition). -/
def addSmoothingBorder (smoothing : Bool) (sz : Extent3d) : Extent3d :=
  if smoothing then ⟨u32add sz.width 2, u32add sz.height 2, sz.depth_or_array_layers⟩
  else sz

/-- Render-target creation of `init_camera` (`src/systems.rs` lines 53-123):
the policy size, plus 2 per axis when smoothing, the image of that size, and
the spawned viewport camera's parameters. `none` models the panic propagated
out of `ViewportSize::calculate`. -/
def mkBinding (window : WindowResolution) (e : InitEntry) : Option Binding :=
  match ViewportSize.calculate e.cam.viewport_size window with
  | none => none
  | some size0 =>
    let size : Extent3d := addSmoothingBorder e.cam.smoothing size0
    some { imageSize := size
           viewportOrder := e.cam.viewport_order
           clearColor := ViewportSize.clear_color e.cam.viewport_size
           scalingWidth := (u32sub size.width 2 : Nat)
           scalingHeight := (u32sub size.height 2 : Nat) }

/-- Loop body of `init_camera`: validation errors `return` from the system,
leaving every remaining queried camera unprocessed this pass. -/
def initLoop (window : WindowResolution) : List InitEntry → Except String (List InitResult)
  | [] => .ok []
  | e :: rest =>
    if validateEntry e then
      match mkBinding window e with
      | none => .error "panic: u32 division by zero in ViewportSize calculate"
      | some b => (initLoop window rest).map (fun os => .bound b :: os)
    else
      .ok (.configError :: rest.map (fun _ => .unprocessed))

/-- `init_camera` from `src/systems.rs` lines 11-125. `window_query.single()`
panics unless exactly one window exists. -/
def init_camera (windows : List WindowResolution) (entries : List InitEntry) :
    Except String (List InitResult) :=
  match windows with
  | [window] => initLoop window entries
  | _ => .error "panic: expected exactly one window in init_camera"

/-- Information `update_viewport_size` reads off a still-existing viewport
camera entity. -/
structure ViewportCamInfo where
  target : RenderTarget
deriving DecidableEq, Repr

/-- One entry of `update_viewport_size`'s primary query: the `PixelCamera`,
the world camera's render target, and its `PixelViewportReferences` viewport
camera (`none` when that entity no longer exists). -/
structure UpdateEntry where
  cam : PixelCamera
  target : RenderTarget
  viewportCam : Option ViewportCamInfo

/-- Per-camera outcome of one `update_viewport_size` pass. `processed` carries
the projection written to the viewport camera, the clear color written in the
`Fit` branch, the final render-target size, and whether the world camera's
image was actually resized (`false` with a logged error when it is gone, or
when the target is not an image). -/
inductive UpdOutcome where
  | processed (smode : ScalingMode) (ccWrite : Option ClearColorConfig)
      (newSize : Extent3d) (resized : Bool) : UpdOutcome
  | skippedNoViewportCam : UpdOutcome
  | skippedNoWindow : UpdOutcome
  | skippedUnchanged : UpdOutcome
  | abortedTextureView : UpdOutcome
  | notReached : UpdOutcome
deriving DecidableEq, Repr

/-- Scaling-mode block of `update_viewport_size` (`src/systems.rs` lines
206-248): the `ScalingMode::Fixed` projection for the viewport camera and, in
the `Fit` branch, the clear color written to it. `f32` aspect ratios are
modelled as exact rationals. -/
def computeScalingMode (vs : ViewportSize) (new_size : Extent3d) (aspect : ℚ) :
    ScalingMode × Option ClearColorConfig :=
  match vs with
  | .fixed _ _ fit | .custom _ fit =>
    match fit with
    | .fit clear_color =>
      if aspect > (new_size.width : ℚ) / (new_size.height : ℚ) then
        (.fixedWH ((new_size.height : ℚ) * aspect) (new_size.height : ℚ), some clear_color)
      else
        (.fixedWH (new_size.width : ℚ) ((new_size.width : ℚ) / aspect), some clear_color)
    | .crop =>
      let axis := min new_size.height new_size.width
      if aspect > 1 then
        (.fixedWH (axis : ℚ) ((axis : ℚ) / aspect), none)
      else
        (.fixedWH ((axis : ℚ) * aspect) (axis : ℚ), none)
    | .stretch => (.fixedWH (new_size.width : ℚ) (new_size.height : ℚ), none)
  | _ => (.fixedWH (new_size.width : ℚ) (new_size.height : ℚ), none)

/-- Tail of the `update_viewport_size` loop body (`src/systems.rs` lines
206-260): compute the projection, add the 2-pixel smoothing border, and resize
the world camera's render-target image in place when it still exists. -/
def finishEntry (st : WorldState) (e : UpdateEntry) (new_size : Extent3d) (aspect : ℚ) :
    WorldState × UpdOutcome :=
  let sm := computeScalingMode e.cam.viewport_size new_size aspect
  let new_size2 : Extent3d := addSmoothingBorder e.cam.smoothing new_size
  match e.target with
  | .image handle =>
    match lookupImage st.images handle with
    | some _ =>
      ({ st with images := setImage st.images handle new_size2 },
       .processed sm.1 sm.2 new_size2 true)
    | none => (st, .processed sm.1 sm.2 new_size2 false)
  | _ => (st, .processed sm.1 sm.2 new_size2 false)

/-- `update_viewport_size` from `src/systems.rs` lines 127-262. Missing
viewport cameras and missing windows take logged `continue` branches; an
unchanged window skips the camera; a viewport camera whose own target image
is gone hits `.expect` (a panic, modelled as `Except.error`); a
`TextureView` target `return`s, leaving the remaining cameras unprocessed. -/
def update_viewport_size (st : WorldState) :
    List UpdateEntry → Except String (WorldState × List UpdOutcome)
  | [] => .ok (st, [])
  | e :: rest =>
    match e.viewportCam with
    | none =>
      (update_viewport_size st rest).map (fun p => (p.1, .skippedNoViewportCam :: p.2))
    | some vc =>
      match vc.target with
      | .window wref =>
        match resolveWindow st wref with
        | none =>
          (update_viewport_size st rest).map (fun p => (p.1, .skippedNoWindow :: p.2))
        | some window =>
          if window.changed = false then
            (update_viewport_size st rest).map (fun p => (p.1, .skippedUnchanged :: p.2))
          else
            match ViewportSize.calculate e.cam.viewport_size window.resolution with
            | none => .error "panic: u32 division by zero in ViewportSize calculate"
            | some new_size =>
              let aspect := window.resolution.width / window.resolution.height
              let r := finishEntry st e new_size aspect
              (update_viewport_size r.1 rest).map (fun p => (p.1, r.2 :: p.2))
      | .image handle =>
        match lookupImage st.images handle with
        | none => .error "panic: RenderTarget image does not exist"
        | some isz =>
          let new_size : Extent3d := ⟨isz.width, isz.height, 1⟩
          let aspect := (isz.width : ℚ) / (isz.height : ℚ)
          let r := finishEntry st e new_size aspect
          (update_viewport_size r.1 rest).map (fun p => (p.1, r.2 :: p.2))
      | .textureView =>
        .ok (st, .abortedTextureView :: rest.map (fun _ => .notReached))

/-- `set_camera_position` from `src/systems.rs` lines 264-270: the camera
transform gets the truncated (rounded toward zero) subpixel position on each
axis. -/
def set_camera_position (subpixel_pos : ℚ × ℚ) : ℤ × ℤ :=
  (truncQ subpixel_pos.1, truncQ subpixel_pos.2)

/-- Remainder computed by `smooth_camera` (`src/systems.rs` lines 307-311):
`x % 1.0` and `(-y) % 1.0` (the y axis of `sprite.rect` is inverted, so the
code negates y before taking the remainder). -/
def smoothRemainder (subpixel_pos : ℚ × ℚ) : ℚ × ℚ :=
  (rustRem subpixel_pos.1 1, rustRem (-subpixel_pos.2) 1)

/-- Bevy `Rect` with `ℚ` coordinates, as written to `sprite.rect`. -/
structure Rect where
  minX : ℚ
  minY : ℚ
  maxX : ℚ
  maxY : ℚ
deriving DecidableEq, Repr

/-- One entry of `smooth_camera`'s camera query: the `PixelCamera` and, when
the referenced viewport sprite entity still exists, the image handle its
sprite carries. -/
structure SmoothEntry where
  cam : PixelCamera
  sprite : Option Nat

/-- Per-camera outcome of one `smooth_camera` pass. -/
inductive SmoothOutcome where
  | skippedNotSmoothing : SmoothOutcome
  | skippedNoImage : SmoothOutcome
  | rectSet (r : Rect) : SmoothOutcome
deriving DecidableEq, Repr

/-- `smooth_camera` from `src/systems.rs` lines 274-318. Cameras with
smoothing off are skipped before any lookup; a destroyed sprite entity hits
`.unwrap()` (panic); a missing image asset takes the logged `continue`
branch; otherwise `sprite.rect` is set to the image rectangle shifted by the
subpixel remainder and shrunk by the 1-pixel border. -/
def smooth_camera (images : ImageAssets) :
    List SmoothEntry → Except String (List SmoothOutcome)
  | [] => .ok []
  | e :: rest =>
    if e.cam.smoothing = false then
      (smooth_camera images rest).map (fun os => .skippedNotSmoothing :: os)
    else
      match e.sprite with
      | none => .error "panic: called unwrap on a missing viewport sprite"
      | some handle =>
        match lookupImage images handle with
        | none => (smooth_camera images rest).map (fun os => .skippedNoImage :: os)
        | some sz =>
          let remainder := smoothRemainder e.cam.subpixel_pos
          let r : Rect :=
            ⟨1 + remainder.1, 1 + remainder.2,
             (sz.width : ℚ) - 1 + remainder.1, (sz.height : ℚ) - 1 + remainder.2⟩
          (smooth_camera images rest).map (fun os => .rectSet r :: os)

/-! ### Helper lemmas -/

lemma truncQ_of_nonneg {q : ℚ} (h : 0 ≤ q) : truncQ q = ⌊q⌋ := by
  simp [truncQ, h]

lemma truncQ_of_neg {q : ℚ} (h : q < 0) : truncQ q = ⌈q⌉ := by
  simp [truncQ, not_le.mpr h]

lemma truncQ_neg (q : ℚ) : truncQ (-q) = -(truncQ q) := by
  rcases lt_trichotomy q 0 with h | h | h
  · rw [truncQ_of_neg h, truncQ_of_nonneg (by linarith : (0:ℚ) ≤ -q), Int.floor_neg]
  · subst h; simp [truncQ]
  · rw [truncQ_of_nonneg h.le, truncQ_of_neg (by linarith : -q < 0), Int.ceil_neg]

lemma rustRem_one (x : ℚ) : rustRem x 1 = x - (truncQ x : ℚ) := by
  unfold rustRem
  rw [div_one, one_mul]

lemma rustRem_one_lt_one (x : ℚ) : rustRem x 1 < 1 := by
  rw [rustRem_one]
  rcases le_or_lt 0 x with h | h
  · rw [truncQ_of_nonneg h]
    have := Int.lt_floor_add_one x
    push_cast at this ⊢
    linarith
  · rw [truncQ_of_neg h]
    have := Int.le_ceil x
    push_cast at this ⊢
    linarith

lemma neg_one_lt_rustRem_one (x : ℚ) : -1 < rustRem x 1 := by
  rw [rustRem_one]
  rcases le_or_lt 0 x with h | h
  · rw [truncQ_of_nonneg h]
    have := Int.floor_le x
    push_cast at this ⊢
    linarith
  · rw [truncQ_of_neg h]
    have := Int.ceil_lt_add_one x
    push_cast at this ⊢
    linarith

lemma rustRem_one_nonneg {x : ℚ} (h : 0 ≤ x) : 0 ≤ rustRem x 1 := by
  rw [rustRem_one, truncQ_of_nonneg h]
  have := Int.floor_le x
  push_cast at this ⊢
  linarith

lemma rustRem_one_nonpos {x : ℚ} (h : x < 0) : rustRem x 1 ≤ 0 := by
  rw [rustRem_one, truncQ_of_neg h]
  have := Int.le_ceil x
  push_cast at this ⊢
  linarith

lemma rustRem_one_neg (y : ℚ) : rustRem (-y) 1 = -(rustRem y 1) := by
  rw [rustRem_one, rustRem_one, truncQ_neg]
  push_cast
  ring

lemma u32cast_natCast {n : ℕ} (h : n ≤ U32MAX) : u32cast (n : ℚ) = n := by
  simp [u32cast, Int.floor_natCast, h]

/-! ### Claim C1 -/

/-- C1 counterexample: the claim asserts the per-frame split uses floor with a
remainder in [0,1) per axis, and that for subpixel position (3.7, -2.3) the
camera transform gets (3, -3) with remainder (0.7, 0.7). The code truncates:
`set_camera_position` writes (3, -2) there (not the floor (3, -3)), and the
y remainder `-2.3 % 1.0 = -0.3` does not lie in [0,1). -/
theorem C1_counterexample :
    set_camera_position (37/10, -23/10) ≠ ((3 : ℤ), (-3 : ℤ)) ∧
    set_camera_position (37/10, -23/10) = ((3 : ℤ), (-2 : ℤ)) ∧
    truncQ (-23/10 : ℚ) ≠ ⌊(-23/10 : ℚ)⌋ ∧
    rustRem (-23/10 : ℚ) 1 = -3/10 ∧ ¬ (0 ≤ rustRem (-23/10 : ℚ) 1) := by
  have ht : truncQ (-23/10 : ℚ) = -2 := by
    rw [truncQ, if_neg (by norm_num), Int.ceil_eq_iff] <;> norm_num
  have ht' : truncQ (37/10 : ℚ) = 3 := by
    rw [truncQ, if_pos (by norm_num), Int.floor_eq_iff] <;> norm_num
  have hf : ⌊(-23/10 : ℚ)⌋ = -3 := by
    rw [Int.floor_eq_iff] <;> norm_num
  have hr : rustRem (-23/10 : ℚ) 1 = -3/10 := by
    rw [rustRem_one, ht]; norm_num
  refine ⟨?_, ?_, ?_, hr, ?_⟩
  · simp only [set_camera_position, ht, ht', Prod.mk.injEq]
    norm_num
  · simp only [set_camera_position, ht, ht']
  · rw [ht, hf]; norm_num
  · rw [hr]; norm_num

/-- C1 amended: the per-frame position split truncates toward zero on each
axis: the camera transform receives `trunc(subpixel_pos)` and the remainder
`subpixel_pos % 1.0` lies in (-1, 1) with the sign of the coordinate; on a
nonnegative coordinate this agrees with floor and the remainder lies in
[0,1), but on a negative coordinate the integer part is the ceiling and the
remainder lies in (-1, 0]. For (3.7, -2.3) the transform gets (3, -2) and the
remainder is (0.7, -0.3). -/
theorem C1_trunc_split (x y : ℚ) :
    set_camera_position (x, y) = (truncQ x, truncQ y) ∧
    (0 ≤ x → truncQ x = ⌊x⌋ ∧ 0 ≤ rustRem x 1) ∧
    (x < 0 → truncQ x = ⌈x⌉ ∧ rustRem x 1 ≤ 0) ∧
    -1 < rustRem x 1 ∧ rustRem x 1 < 1 ∧
    -1 < rustRem y 1 ∧ rustRem y 1 < 1 := by
  refine ⟨rfl, fun h => ⟨truncQ_of_nonneg h, rustRem_one_nonneg h⟩,
    fun h => ⟨truncQ_of_neg h, rustRem_one_nonpos h⟩,
    neg_one_lt_rustRem_one x, rustRem_one_lt_one x,
    neg_one_lt_rustRem_one y, rustRem_one_lt_one y⟩

/-- C1 amended claim exercised at the spec's example input (3.7, -2.3). -/
theorem C1_trunc_split_witness :
    set_camera_position (37/10, -23/10) = (truncQ (37/10 : ℚ), truncQ (-23/10 : ℚ)) ∧
    truncQ (37/10 : ℚ) = ⌊(37/10 : ℚ)⌋ ∧ 0 ≤ rustRem (37/10 : ℚ) 1 ∧
    truncQ (-23/10 : ℚ) = ⌈(-23/10 : ℚ)⌉ ∧ rustRem (-23/10 : ℚ) 1 ≤ 0 :=
  ⟨(C1_trunc_split (37/10) (-23/10)).1,
   ((C1_trunc_split (37/10) (-23/10)).2.1 (by norm_num)).1,
   ((C1_trunc_split (37/10) (-23/10)).2.1 (by norm_num)).2,
   ((C1_trunc_split (-23/10) (37/10)).2.2.1 (by norm_num)).1,
   ((C1_trunc_split (-23/10) (37/10)).2.2.1 (by norm_num)).2⟩

/-! ### Claim C10 -/

/-- C10: for every subpixel position, the integer part written to the camera
transform plus the fractional remainder reconstructs the position exactly per
axis (`trunc(x) + x % 1.0 = x`), and the y remainder used for the sprite's
visible rectangle is the negation of `y % 1.0` (the code computes
`-y % 1.0`, which equals `-(y % 1.0)`, to counteract the rect's inverted y
axis). -/
theorem C10_reconstruction (x y : ℚ) :
    ((set_camera_position (x, y)).1 : ℚ) + rustRem x 1 = x ∧
    ((set_camera_position (x, y)).2 : ℚ) + rustRem y 1 = y ∧
    smoothRemainder (x, y) = (rustRem x 1, -(rustRem y 1)) := by
  refine ⟨?_, ?_, ?_⟩
  · show ((truncQ x : ℤ) : ℚ) + rustRem x 1 = x
    rw [rustRem_one]; ring
  · show ((truncQ y : ℤ) : ℚ) + rustRem y 1 = y
    rw [rustRem_one]; ring
  · show (rustRem x 1, rustRem (-y) 1) = (rustRem x 1, -(rustRem y 1))
    rw [rustRem_one_neg]

/-! ### Claim C2 -/

/-- A `PixelCamera` with the `PixelFixed(4)` strategy, smoothing enabled, and a
valid configuration (viewport layer 1, world camera order 0, viewport order 1),
as in the end-to-end example. -/
def pf4Entry : InitEntry :=
  { cam := { viewport_size := .pixelFixed 4, subpixel_pos := (0, 0),
             viewport_order := 1, viewport_layer := RenderLayers.layer 1,
             smoothing := true },
    cameraOrder := 0, world_layer := none }

lemma calculate_pixelFixed_eq {n ww wh : ℕ} (hn : 1 ≤ n) (hww : ww ≤ U32MAX)
    (hwh : wh ≤ U32MAX) :
    ViewportSize.calculate (.pixelFixed n) ⟨(ww : ℚ), (wh : ℚ)⟩ =
      some ⟨Int.toNat ⌈(ww : ℚ) / (n : ℚ)⌉, Int.toNat ⌈(wh : ℚ) / (n : ℚ)⌉, 1⟩ := by
  have hbound : ∀ m : ℕ, m ≤ U32MAX → Int.toNat ⌈(m : ℚ) / (n : ℚ)⌉ ≤ U32MAX := by
    intro m hm
    have hdiv : (m : ℚ) / (n : ℚ) ≤ (m : ℚ) :=
      div_le_self (Nat.cast_nonneg m) (by exact_mod_cast hn)
    have hceil : ⌈(m : ℚ) / (n : ℚ)⌉ ≤ (m : ℤ) := by
      calc ⌈(m : ℚ) / (n : ℚ)⌉ ≤ ⌈(m : ℚ)⌉ := Int.ceil_le_ceil hdiv
        _ = (m : ℤ) := Int.ceil_natCast m
    calc Int.toNat ⌈(m : ℚ) / (n : ℚ)⌉ ≤ Int.toNat (m : ℤ) := Int.toNat_le_toNat hceil
      _ = m := Int.toNat_natCast m
      _ ≤ U32MAX := hm
  have hne : n ≠ 0 := by omega
  simp only [ViewportSize.calculate, hne, if_false, ceilCast]
  rw [min_eq_left (hbound ww hww), min_eq_left (hbound wh hwh)]

/-- C2: for the `PixelFixed(n)` strategy (with a nonzero pixel size and a
window within `u32` range), `calculate` returns the ceiling of the window
size divided by `n` on each axis; concretely `(800,600)` with `PixelFixed(4)`
gives `(200,150)`, and the render target `init_camera` creates for that
camera with smoothing enabled is `(202,152)`. -/
theorem C2_pixelFixed (n ww wh : ℕ) (hn : 1 ≤ n) (hww : ww ≤ U32MAX) (hwh : wh ≤ U32MAX) :
    ViewportSize.calculate (.pixelFixed n) ⟨(ww : ℚ), (wh : ℚ)⟩ =
      some ⟨Int.toNat ⌈(ww : ℚ) / (n : ℚ)⌉, Int.toNat ⌈(wh : ℚ) / (n : ℚ)⌉, 1⟩ ∧
    ViewportSize.calculate (.pixelFixed 4) ⟨800, 600⟩ = some ⟨200, 150, 1⟩ ∧
    init_camera [⟨800, 600⟩] [pf4Entry] =
      .ok [.bound ⟨⟨202, 152, 1⟩, 1, .noColor, 200, 150⟩] := by
  have hc : ViewportSize.calculate (.pixelFixed 4) ⟨800, 600⟩ = some ⟨200, 150, 1⟩ := by
    norm_num [ViewportSize.calculate, ceilCast, U32MAX]
    exact ⟨by decide, by decide⟩
  refine ⟨calculate_pixelFixed_eq hn hww hwh, hc, ?_⟩
  simp [init_camera, initLoop, validateEntry, pf4Entry, mkBinding, hc,
        addSmoothingBorder, u32add, u32sub, U32LIM, ViewportSize.clear_color,
        RenderLayers.intersects, RenderLayers.layer, RenderLayers.noLayers,
        Except.map]

/-- C2 exercised at the example input: `n = 4`, window `(800,600)`. -/
theorem C2_pixelFixed_witness :
    ViewportSize.calculate (.pixelFixed 4) ⟨(800 : ℕ), (600 : ℕ)⟩ =
      some ⟨Int.toNat ⌈((800 : ℕ) : ℚ) / ((4 : ℕ) : ℚ)⌉,
            Int.toNat ⌈((600 : ℕ) : ℚ) / ((4 : ℕ) : ℚ)⌉, 1⟩ ∧
    init_camera [⟨800, 600⟩] [pf4Entry] =
      .ok [.bound ⟨⟨202, 152, 1⟩, 1, .noColor, 200, 150⟩] :=
  ⟨(C2_pixelFixed 4 800 600 (by norm_num) (by norm_num [U32MAX]) (by norm_num [U32MAX])).1,
   (C2_pixelFixed 4 800 600 (by norm_num) (by norm_num [U32MAX]) (by norm_num [U32MAX])).2.2⟩

/-! ### Claims C4 and C5: the AutoMin arithmetic -/

lemma autoMin_calc {ww wh mw mh : ℕ} (hww : 1 ≤ ww) (hwh : 1 ≤ wh)
    (hw32 : ww ≤ U32MAX) (hh32 : wh ≤ U32MAX)
    (h1 : ww * mh < U32LIM) (h2 : mw * wh < U32LIM) :
    ViewportSize.calculate (.autoMin mw mh) ⟨(ww : ℚ), (wh : ℚ)⟩ =
      some (if mw * wh < ww * mh then ⟨ww * mh / wh, mh, 1⟩ else ⟨mw, wh * mw / ww, 1⟩) := by
  have hcw := u32cast_natCast hw32
  have hch := u32cast_natCast hh32
  have hm1 : u32mul ww mh = ww * mh := Nat.mod_eq_of_lt h1
  have hm2 : u32mul mw wh = mw * wh := Nat.mod_eq_of_lt h2
  have hm3 : u32mul wh mw = wh * mw := Nat.mod_eq_of_lt (by rwa [Nat.mul_comm] at h2)
  have hwh0 : wh ≠ 0 := by omega
  have hww0 : ww ≠ 0 := by omega
  simp only [ViewportSize.calculate, hcw, hch, hm1, hm2, hm3, u32div, hwh0, hww0,
    if_false, gt_iff_lt]
  by_cases h : mw * wh < ww * mh
  · rw [if_pos h, if_pos h]
  · rw [if_neg h, if_neg h]

lemma autoMin_bounds {ww wh mw mh : ℕ} (hww : 1 ≤ ww) (hwh : 1 ≤ wh)
    (hw32 : ww ≤ U32MAX) (hh32 : wh ≤ U32MAX)
    (h1 : ww * mh < U32LIM) (h2 : mw * wh < U32LIM) (e : Extent3d)
    (hc : ViewportSize.calculate (.autoMin mw mh) ⟨(ww : ℚ), (wh : ℚ)⟩ = some e) :
    mw ≤ e.width ∧ mh ≤ e.height ∧ (e.width = mw ∨ e.height = mh) ∧
    (mw * wh < ww * mh → e.height = mh ∧ e.width = ww * mh / wh) ∧
    (¬ mw * wh < ww * mh → e.width = mw ∧ e.height = wh * mw / ww) := by
  rw [autoMin_calc hww hwh hw32 hh32 h1 h2] at hc
  by_cases h : mw * wh < ww * mh
  · rw [if_pos h] at hc
    obtain rfl : e = ⟨ww * mh / wh, mh, 1⟩ := (Option.some_inj.mp hc).symm
    have hdivge : mw ≤ ww * mh / wh :=
      (Nat.le_div_iff_mul_le (by omega : 0 < wh)).mpr h.le
    exact ⟨hdivge, le_refl mh, Or.inr rfl, fun _ => ⟨rfl, rfl⟩, fun hn => absurd h hn⟩
  · rw [if_neg h] at hc
    obtain rfl : e = ⟨mw, wh * mw / ww, 1⟩ := (Option.some_inj.mp hc).symm
    have hle : ww * mh ≤ mw * wh := not_lt.mp h
    have hdivge : mh ≤ wh * mw / ww := by
      apply (Nat.le_div_iff_mul_le (by omega : 0 < ww)).mpr
      calc mh * ww = ww * mh := Nat.mul_comm mh ww
        _ ≤ mw * wh := hle
        _ = wh * mw := Nat.mul_comm mw wh
    exact ⟨le_refl mw, hdivge, Or.inl rfl, fun hcon => absurd hcon h, fun _ => ⟨rfl, rfl⟩⟩

/-- C4 counterexample: the claim asserts every strategy returns a size of at
least (1,1) for any window of at least (1,1); but `FixedWidth(1)` at window
`(2,1)` returns height `1 * 1 / 2 = 0` (integer truncation). -/
theorem C4_counterexample :
    ¬ (∀ (vs : ViewportSize) (ww wh : ℕ), 1 ≤ ww → 1 ≤ wh →
        ∀ e : Extent3d, ViewportSize.calculate vs ⟨(ww : ℚ), (wh : ℚ)⟩ = some e →
          1 ≤ e.width ∧ 1 ≤ e.height) := by
  intro hclaim
  have hcalc : ViewportSize.calculate (.fixedWidth 1) ⟨((2 : ℕ) : ℚ), ((1 : ℕ) : ℚ)⟩ =
      some ⟨1, 0, 1⟩ := by
    have h2 : u32cast ((2 : ℕ) : ℚ) = 2 := u32cast_natCast (by norm_num [U32MAX])
    have h1 : u32cast ((1 : ℕ) : ℚ) = 1 := u32cast_natCast (by norm_num [U32MAX])
    push_cast at h2 h1
    simp [ViewportSize.calculate, h2, h1, u32mul, u32div, U32LIM]
  have := hclaim (.fixedWidth 1) 2 1 (by norm_num) (by norm_num) ⟨1, 0, 1⟩ hcalc
  exact absurd this.2 (by norm_num)

/-- C4 amended: the at-least-(1,1) guarantee holds for the strategies whose
output is bounded below by construction: `PixelFixed(n)` with `n ≥ 1`,
`Fixed(w,h,fit)` with `w,h ≥ 1`, and `AutoMin(mw,mh)` with `mw,mh ≥ 1`
(within non-overflowing `u32` arithmetic); `FixedWidth`, `FixedHeight` and
`AutoMax` can truncate an axis to 0 and `Custom` is unconstrained. -/
theorem C4_amended (ww wh : ℕ) (hww : 1 ≤ ww) (hwh : 1 ≤ wh)
    (hw32 : ww ≤ U32MAX) (hh32 : wh ≤ U32MAX) :
    (∀ n, 1 ≤ n → ∀ e : Extent3d,
      ViewportSize.calculate (.pixelFixed n) ⟨(ww : ℚ), (wh : ℚ)⟩ = some e →
      1 ≤ e.width ∧ 1 ≤ e.height) ∧
    (∀ w h fit, 1 ≤ w → 1 ≤ h → ∀ e : Extent3d,
      ViewportSize.calculate (.fixed w h fit) ⟨(ww : ℚ), (wh : ℚ)⟩ = some e →
      1 ≤ e.width ∧ 1 ≤ e.height) ∧
    (∀ mw mh, 1 ≤ mw → 1 ≤ mh → ww * mh < U32LIM → mw * wh < U32LIM →
      ∀ e : Extent3d,
      ViewportSize.calculate (.autoMin mw mh) ⟨(ww : ℚ), (wh : ℚ)⟩ = some e →
      1 ≤ e.width ∧ 1 ≤ e.height) := by
  refine ⟨?_, ?_, ?_⟩
  · intro n hn e hc
    rw [calculate_pixelFixed_eq hn hw32 hh32] at hc
    obtain rfl : e = _ := (Option.some_inj.mp hc).symm
    have hpos : ∀ m : ℕ, 1 ≤ m → 1 ≤ Int.toNat ⌈(m : ℚ) / (n : ℚ)⌉ := by
      intro m hm
      have hq : (0 : ℚ) < (m : ℚ) / (n : ℚ) :=
        div_pos (by exact_mod_cast hm) (by exact_mod_cast hn)
      have hceil : 0 < ⌈(m : ℚ) / (n : ℚ)⌉ := Int.ceil_pos.mpr hq
      omega
    exact ⟨hpos ww hww, hpos wh hwh⟩
  · intro w h fit hw hh e hc
    simp only [ViewportSize.calculate] at hc
    obtain rfl : e = ⟨w, h, 1⟩ := (Option.some_inj.mp hc).symm
    exact ⟨hw, hh⟩
  · intro mw mh hmw hmh h1 h2 e hc
    obtain ⟨hw, hh, -, -, -⟩ := autoMin_bounds hww hwh hw32 hh32 h1 h2 e hc
    exact ⟨le_trans hmw hw, le_trans hmh hh⟩

/-- C4 amended claim exercised at `PixelFixed(4)`, `Fixed(320,180)` and
`AutoMin(320,180)` on the window `(800,600)`. -/
theorem C4_amended_witness :
    (∀ e : Extent3d,
      ViewportSize.calculate (.pixelFixed 4) ⟨((800 : ℕ) : ℚ), ((600 : ℕ) : ℚ)⟩ = some e →
      1 ≤ e.width ∧ 1 ≤ e.height) ∧
    (∀ e : Extent3d,
      ViewportSize.calculate (.fixed 320 180 .stretch) ⟨((800 : ℕ) : ℚ), ((600 : ℕ) : ℚ)⟩ =
        some e → 1 ≤ e.width ∧ 1 ≤ e.height) ∧
    (∀ e : Extent3d,
      ViewportSize.calculate (.autoMin 320 180) ⟨((800 : ℕ) : ℚ), ((600 : ℕ) : ℚ)⟩ = some e →
      1 ≤ e.width ∧ 1 ≤ e.height) := by
  have h := C4_amended 800 600 (by norm_num) (by norm_num)
    (by norm_num [U32MAX]) (by norm_num [U32MAX])
  exact ⟨h.1 4 (by norm_num), h.2.1 320 180 .stretch (by norm_num) (by norm_num),
    h.2.2 320 180 (by norm_num) (by norm_num) (by norm_num [U32LIM]) (by norm_num [U32LIM])⟩

/-- C5 counterexample: the claim quantifies over every window and minimum; at
window `(2,2)` with `AutoMin(2^31, 2^31)` the `u32` products
`window_width * min_height` and `window_height * min_width` wrap to 0
(release-mode overflow), the comparison picks the width-pinned branch, and the
derived height is `0 / 2 = 0`, far below `min_height`. -/
theorem C5_counterexample :
    ¬ (∀ (ww wh mw mh : ℕ), 1 ≤ ww → 1 ≤ wh →
        ∀ e : Extent3d,
          ViewportSize.calculate (.autoMin mw mh) ⟨(ww : ℚ), (wh : ℚ)⟩ = some e →
          mw ≤ e.width ∧ mh ≤ e.height ∧ (e.width = mw ∨ e.height = mh)) := by
  intro hclaim
  have hc2 : u32cast ((2 : ℕ) : ℚ) = 2 := u32cast_natCast (by norm_num [U32MAX])
  push_cast at hc2
  have hcalc : ViewportSize.calculate (.autoMin 2147483648 2147483648)
      ⟨((2 : ℕ) : ℚ), ((2 : ℕ) : ℚ)⟩ = some ⟨2147483648, 0, 1⟩ := by
    push_cast
    simp [ViewportSize.calculate, hc2, u32mul, u32div, U32LIM]
  have := hclaim 2 2 2147483648 2147483648 (by norm_num) (by norm_num)
    ⟨2147483648, 0, 1⟩ hcalc
  exact absurd this.2.1 (by norm_num)

/-- C5 amended: provided the `u32` products `window_width * min_height` and
`min_width * window_height` do not overflow (the code computes them in
wrapping `u32` arithmetic), `AutoMin(min_w, min_h)` returns a size with
width ≥ min_w and height ≥ min_h, equality on at least one axis, the pinned
axis chosen by comparing `window_width * min_height` against
`min_width * window_height`. -/
theorem C5_amended (ww wh mw mh : ℕ) (hww : 1 ≤ ww) (hwh : 1 ≤ wh)
    (hw32 : ww ≤ U32MAX) (hh32 : wh ≤ U32MAX)
    (h1 : ww * mh < U32LIM) (h2 : mw * wh < U32LIM) (e : Extent3d)
    (hc : ViewportSize.calculate (.autoMin mw mh) ⟨(ww : ℚ), (wh : ℚ)⟩ = some e) :
    mw ≤ e.width ∧ mh ≤ e.height ∧ (e.width = mw ∨ e.height = mh) ∧
    (mw * wh < ww * mh → e.height = mh) ∧
    (ww * mh ≤ mw * wh → e.width = mw) := by
  obtain ⟨h3, h4, h5, h6, h7⟩ := autoMin_bounds hww hwh hw32 hh32 h1 h2 e hc
  exact ⟨h3, h4, h5, fun h => (h6 h).1, fun h => (h7 (not_lt.mpr h)).1⟩

/-- C5 amended claim exercised at window `(800,600)`, `AutoMin(320,180)`:
the result is `(320, 240)`, pinned on the width axis. -/
theorem C5_amended_witness :
    320 ≤ (320 : ℕ) ∧ 180 ≤ (240 : ℕ) ∧ ((320 : ℕ) = 320 ∨ (240 : ℕ) = 180) ∧
    (320 * 600 < 800 * 180 → (240 : ℕ) = 180) ∧
    (800 * 180 ≤ 320 * 600 → (320 : ℕ) = 320) := by
  have hc8 : u32cast ((800 : ℕ) : ℚ) = 800 := u32cast_natCast (by norm_num [U32MAX])
  have hc6 : u32cast ((600 : ℕ) : ℚ) = 600 := u32cast_natCast (by norm_num [U32MAX])
  push_cast at hc8 hc6
  have hcalc : ViewportSize.calculate (.autoMin 320 180)
      ⟨((800 : ℕ) : ℚ), ((600 : ℕ) : ℚ)⟩ = some ⟨320, 240, 1⟩ := by
    push_cast
    simp [ViewportSize.calculate, hc8, hc6, u32mul, u32div, U32LIM]
  exact C5_amended 800 600 320 180 (by norm_num) (by norm_num)
    (by norm_num [U32MAX]) (by norm_num [U32MAX])
    (by norm_num [U32LIM]) (by norm_num [U32LIM]) ⟨320, 240, 1⟩ hcalc

/-! ### Claim C9: determinism and round-trip of resize-on-change -/

lemma lookupImage_setImage_self {imgs : ImageAssets} {hdl : Nat} {o : Extent3d}
    (sz : Extent3d) (h : lookupImage imgs hdl = some o) :
    lookupImage (setImage imgs hdl sz) hdl = some sz := by
  induction imgs with
  | nil => simp [lookupImage] at h
  | cons p rest ih =>
    obtain ⟨h1, o1⟩ := p
    by_cases hh : h1 = hdl
    · subst hh
      simp [lookupImage, setImage]
    · simp only [lookupImage, setImage, hh, if_false] at h ⊢
      exact ih h

lemma setImage_of_none {imgs : ImageAssets} {hdl : Nat} (sz : Extent3d)
    (h : lookupImage imgs hdl = none) : setImage imgs hdl sz = imgs := by
  induction imgs with
  | nil => simp [setImage]
  | cons p rest ih =>
    obtain ⟨h1, o1⟩ := p
    by_cases hh : h1 = hdl
    · subst hh
      simp [lookupImage] at h
    · simp only [lookupImage, hh, if_false] at h
      simp only [setImage, hh, if_false]
      rw [ih h]

/-- A single bound pixel camera as `update_viewport_size` sees it: its render
target is the image `hdl`, its viewport camera renders to the primary
window. -/
def singleCamEntry (vs : ViewportSize) (sm : Bool) (hdl : Nat) : UpdateEntry :=
  { cam := { viewport_size := vs, subpixel_pos := (0, 0), viewport_order := 1,
             viewport_layer := RenderLayers.layer 1, smoothing := sm },
    target := .image hdl,
    viewportCam := some ⟨.window .primary⟩ }

/-- One `update_viewport_size` pass over a single bound camera, with the
primary window at resolution `res` and marked changed; returns the image
assets afterwards. -/
def resizeFrame (vs : ViewportSize) (sm : Bool) (hdl : Nat) (res : WindowResolution)
    (imgs : ImageAssets) : Except String ImageAssets :=
  (update_viewport_size ⟨imgs, some ⟨res, true⟩, []⟩ [singleCamEntry vs sm hdl]).map
    (fun p => p.1.images)

lemma resizeFrame_eq {vs : ViewportSize} {sm : Bool} {hdl : Nat} {res : WindowResolution}
    (imgs : ImageAssets) {nsz : Extent3d}
    (hc : ViewportSize.calculate vs res = some nsz) :
    resizeFrame vs sm hdl res imgs =
      .ok (match lookupImage imgs hdl with
           | some _ => setImage imgs hdl (addSmoothingBorder sm nsz)
           | none => imgs) := by
  unfold resizeFrame update_viewport_size singleCamEntry resolveWindow finishEntry
  simp only [hc]
  cases hlk : lookupImage imgs hdl with
  | none => simp [hlk, Except.map, update_viewport_size]
  | some o => simp [hlk, Except.map, update_viewport_size]

lemma resizeFrame_ok {vs : ViewportSize} {sm : Bool} {hdl : Nat} {res : WindowResolution}
    {imgs imgs' : ImageAssets} (h : resizeFrame vs sm hdl res imgs = .ok imgs') :
    ∃ nsz, ViewportSize.calculate vs res = some nsz := by
  cases hc : ViewportSize.calculate vs res with
  | some nsz => exact ⟨nsz, rfl⟩
  | none =>
    rw [resizeFrame, update_viewport_size, singleCamEntry] at h
    simp [resolveWindow, hc, Except.map] at h

/-- C9: `ViewportSize::calculate` is a pure function of the strategy and the
window resolution, so a resize pass at resolution `R`, then at `A`, then at
`R` again, leaves the render-target image at exactly the size the first `R`
pass gave it, for every sizing strategy. -/
theorem C9_roundtrip (vs : ViewportSize) (sm : Bool) (hdl : Nat)
    (r a : WindowResolution) (imgs0 imgs1 imgs2 imgs3 : ImageAssets)
    (h1 : resizeFrame vs sm hdl r imgs0 = .ok imgs1)
    (h2 : resizeFrame vs sm hdl a imgs1 = .ok imgs2)
    (h3 : resizeFrame vs sm hdl r imgs2 = .ok imgs3) :
    lookupImage imgs3 hdl = lookupImage imgs1 hdl := by
  obtain ⟨nr, hnr⟩ := resizeFrame_ok h1
  obtain ⟨na, hna⟩ := resizeFrame_ok h2
  rw [resizeFrame_eq imgs0 hnr] at h1
  rw [resizeFrame_eq imgs1 hna] at h2
  rw [resizeFrame_eq imgs2 hnr] at h3
  cases hlk0 : lookupImage imgs0 hdl with
  | none =>
    rw [hlk0] at h1
    obtain rfl : imgs0 = imgs1 := Except.ok.inj h1
    rw [hlk0] at h2
    obtain rfl : imgs0 = imgs2 := Except.ok.inj h2
    rw [hlk0] at h3
    obtain rfl : imgs0 = imgs3 := Except.ok.inj h3
    rfl
  | some o0 =>
    rw [hlk0] at h1
    have e1 : imgs1 = setImage imgs0 hdl (addSmoothingBorder sm nr) := (Except.ok.inj h1).symm
    have hlk1 : lookupImage imgs1 hdl = some (addSmoothingBorder sm nr) := by
      rw [e1]
      exact lookupImage_setImage_self _ hlk0
    rw [hlk1] at h2
    have e2 : imgs2 = setImage imgs1 hdl (addSmoothingBorder sm na) := (Except.ok.inj h2).symm
    have hlk2 : lookupImage imgs2 hdl = some (addSmoothingBorder sm na) := by
      rw [e2]
      exact lookupImage_setImage_self _ hlk1
    rw [hlk2] at h3
    have e3 : imgs3 = setImage imgs2 hdl (addSmoothingBorder sm nr) := (Except.ok.inj h3).symm
    have hlk3 : lookupImage imgs3 hdl = some (addSmoothingBorder sm nr) := by
      rw [e3]
      exact lookupImage_setImage_self _ hlk2
    rw [hlk3, hlk1]

/-- C9 exercised concretely: `PixelFixed(4)` camera, window resized
`(800,600) → (1024,768) → (800,600)`; the image comes back to `(202,152)`. -/
theorem C9_roundtrip_witness :
    lookupImage [(7, ⟨202, 152, 1⟩)] 7 = lookupImage [(7, ⟨202, 152, 1⟩)] 7 := by
  have hstep : ∀ (res : WindowResolution) (nsz : Extent3d) (imgs : ImageAssets)
      (o : Extent3d), ViewportSize.calculate (.pixelFixed 4) res = some nsz →
      lookupImage imgs 7 = some o →
      resizeFrame (.pixelFixed 4) true 7 res imgs =
        .ok (setImage imgs 7 (addSmoothingBorder true nsz)) := by
    intro res nsz imgs o hc hlk
    rw [resizeFrame_eq imgs hc, hlk]
  have hc800 : ViewportSize.calculate (.pixelFixed 4) ⟨800, 600⟩ = some ⟨200, 150, 1⟩ := by
    norm_num [ViewportSize.calculate, ceilCast, U32MAX]
    exact ⟨by decide, by decide⟩
  have hc1024 : ViewportSize.calculate (.pixelFixed 4) ⟨1024, 768⟩ = some ⟨256, 192, 1⟩ := by
    norm_num [ViewportSize.calculate, ceilCast, U32MAX]
    exact ⟨by decide, by decide⟩
  exact C9_roundtrip (.pixelFixed 4) true 7 ⟨800, 600⟩ ⟨1024, 768⟩
    [(7, ⟨100, 100, 1⟩)] [(7, ⟨202, 152, 1⟩)] [(7, ⟨258, 194, 1⟩)] [(7, ⟨202, 152, 1⟩)]
    (by rw [hstep ⟨800, 600⟩ ⟨200, 150, 1⟩ [(7, ⟨100, 100, 1⟩)] ⟨100, 100, 1⟩ hc800 rfl]
        simp [setImage, addSmoothingBorder, u32add, U32LIM])
    (by rw [hstep ⟨1024, 768⟩ ⟨256, 192, 1⟩ [(7, ⟨202, 152, 1⟩)] ⟨202, 152, 1⟩ hc1024 rfl]
        simp [setImage, addSmoothingBorder, u32add, U32LIM])
    (by rw [hstep ⟨800, 600⟩ ⟨200, 150, 1⟩ [(7, ⟨258, 194, 1⟩)] ⟨258, 194, 1⟩ hc800 rfl]
        simp [setImage, addSmoothingBorder, u32add, U32LIM])

/-! ### Claim C3: the smoothing-border invariant -/

lemma addSmoothingBorder_eq {sz : Extent3d} (sm : Bool)
    (hw : sz.width + 2 ≤ U32MAX) (hh : sz.height + 2 ≤ U32MAX) :
    addSmoothingBorder sm sz =
      ⟨sz.width + (if sm then 2 else 0), sz.height + (if sm then 2 else 0),
       sz.depth_or_array_layers⟩ := by
  have hw2 : sz.width + 2 < U32LIM := by
    simp only [U32MAX] at hw
    simp only [U32LIM]
    omega
  have hh2 : sz.height + 2 < U32LIM := by
    simp only [U32MAX] at hh
    simp only [U32LIM]
    omega
  cases sm with
  | false => simp [addSmoothingBorder]
  | true =>
    simp only [addSmoothingBorder, if_true, u32add]
    rw [Nat.mod_eq_of_lt hw2, Nat.mod_eq_of_lt hh2]

/-- C3: both transitions keep the render-target size equal to the policy
output for the current window resolution, plus 2 per axis exactly when
smoothing is enabled. First part: the image `init_camera` creates. Second
part: the image after a resize-on-change pass of `update_viewport_size`
driven by the (changed) primary window. Both require the policy output to
stay clear of `u32` wrapping when the border is added. -/
theorem C3_invariant :
    (∀ (window : WindowResolution) (e : InitEntry) (sz : Extent3d) (b : Binding),
      ViewportSize.calculate e.cam.viewport_size window = some sz →
      mkBinding window e = some b →
      sz.width + 2 ≤ U32MAX → sz.height + 2 ≤ U32MAX →
      b.imageSize.width = sz.width + (if e.cam.smoothing then 2 else 0) ∧
      b.imageSize.height = sz.height + (if e.cam.smoothing then 2 else 0)) ∧
    (∀ (vs : ViewportSize) (sm : Bool) (hdl : Nat) (res : WindowResolution)
       (imgs imgs2 : ImageAssets) (sz old : Extent3d),
      ViewportSize.calculate vs res = some sz →
      lookupImage imgs hdl = some old →
      sz.width + 2 ≤ U32MAX → sz.height + 2 ≤ U32MAX →
      resizeFrame vs sm hdl res imgs = .ok imgs2 →
      lookupImage imgs2 hdl =
        some ⟨sz.width + (if sm then 2 else 0), sz.height + (if sm then 2 else 0),
              sz.depth_or_array_layers⟩) := by
  constructor
  · intro window e sz b hc hb hw hh
    simp only [mkBinding, hc] at hb
    have hbi : b.imageSize = addSmoothingBorder e.cam.smoothing sz := by
      rw [(Option.some_inj.mp hb).symm]
    rw [hbi, addSmoothingBorder_eq e.cam.smoothing hw hh]
    exact ⟨rfl, rfl⟩
  · intro vs sm hdl res imgs imgs2 sz old hc hlk hw hh hrun
    rw [resizeFrame_eq imgs hc, hlk] at hrun
    have e2 : imgs2 = setImage imgs hdl (addSmoothingBorder sm sz) := (Except.ok.inj hrun).symm
    rw [e2, lookupImage_setImage_self _ hlk, addSmoothingBorder_eq sm hw hh]

/-- C3 exercised at `PixelFixed(4)`, window `(800,600)`, smoothing on: both
the bound image and the resized image are `(202,152)`. -/
theorem C3_invariant_witness :
    ((⟨⟨202, 152, 1⟩, 1, .noColor, 200, 150⟩ : Binding).imageSize.width = 202 ∧
     (⟨⟨202, 152, 1⟩, 1, .noColor, 200, 150⟩ : Binding).imageSize.height = 152) ∧
    lookupImage (setImage [(7, ⟨100, 100, 1⟩)] 7 (addSmoothingBorder true ⟨200, 150, 1⟩)) 7 =
      some ⟨202, 152, 1⟩ := by
  have hc : ViewportSize.calculate (.pixelFixed 4) ⟨800, 600⟩ = some ⟨200, 150, 1⟩ := by
    norm_num [ViewportSize.calculate, ceilCast, U32MAX]
    exact ⟨by decide, by decide⟩
  have hb : mkBinding ⟨800, 600⟩ pf4Entry =
      some ⟨⟨202, 152, 1⟩, 1, .noColor, 200, 150⟩ := by
    simp [mkBinding, pf4Entry, hc, addSmoothingBorder, u32add, u32sub, U32LIM,
      ViewportSize.clear_color]
  have hrun : resizeFrame (.pixelFixed 4) true 7 ⟨800, 600⟩ [(7, ⟨100, 100, 1⟩)] =
      .ok (setImage [(7, ⟨100, 100, 1⟩)] 7 (addSmoothingBorder true ⟨200, 150, 1⟩)) := by
    rw [resizeFrame_eq _ hc]
    rfl
  exact ⟨C3_invariant.1 ⟨800, 600⟩ pf4Entry ⟨200, 150, 1⟩
      ⟨⟨202, 152, 1⟩, 1, .noColor, 200, 150⟩ hc hb
      (by norm_num [U32MAX]) (by norm_num [U32MAX]),
    C3_invariant.2 (.pixelFixed 4) true 7 ⟨800, 600⟩ [(7, ⟨100, 100, 1⟩)]
      (setImage [(7, ⟨100, 100, 1⟩)] 7 (addSmoothingBorder true ⟨200, 150, 1⟩))
      ⟨200, 150, 1⟩ ⟨100, 100, 1⟩ hc rfl
      (by norm_num [U32MAX]) (by norm_num [U32MAX]) hrun⟩

/-! ### Claims C6, C7, C8: error handling of the per-frame systems -/

/-- A `PixelCamera` whose world camera's order violates the order invariant
(5 is not strictly less than the viewport order 1). -/
def badOrderEntry : InitEntry :=
  { cam := { viewport_size := .pixelFixed 4, subpixel_pos := (0, 0), viewport_order := 1,
             viewport_layer := RenderLayers.layer 1, smoothing := true },
    cameraOrder := 5, world_layer := none }

/-- A `PixelCamera` with an empty viewport layer mask whose world camera
carries an explicit `RenderLayers` component (layer 0). -/
def emptyLayerEntry : InitEntry :=
  { cam := { viewport_size := .pixelFixed 4, subpixel_pos := (0, 0), viewport_order := 1,
             viewport_layer := RenderLayers.noLayers, smoothing := true },
    cameraOrder := 0, world_layer := some (RenderLayers.layer 0) }

/-- C6 counterexample: the claim says expected failures never panic, but
(a) `init_camera` calls `window_query.single()`, which panics when no window
exists; (b) `smooth_camera` calls `.unwrap()` on the viewport sprite lookup,
which panics when the sprite entity was destroyed; (c) `update_viewport_size`
calls `.expect` on the viewport camera's image render target, which panics
when that image was destroyed. -/
theorem C6_counterexample :
    init_camera [] [pf4Entry] =
      .error "panic: expected exactly one window in init_camera" ∧
    smooth_camera [] [{ cam := pf4Entry.cam, sprite := none }] =
      .error "panic: called unwrap on a missing viewport sprite" ∧
    update_viewport_size ⟨[], none, []⟩
        [{ cam := pf4Entry.cam, target := .image 0, viewportCam := some ⟨.image 5⟩ }] =
      .error "panic: RenderTarget image does not exist" := by
  refine ⟨rfl, ?_, rfl⟩
  simp [smooth_camera, pf4Entry]

/-- C6 amended: the handled failures are non-fatal and skip only the affected
camera — a missing window during `update_viewport_size` and a missing image
asset during `smooth_camera` take logged error branches and processing
continues — but three expected conditions do panic: no window at bind time
(`single()`), a destroyed viewport sprite in `smooth_camera` (`unwrap()`),
and a destroyed image target of the viewport camera in
`update_viewport_size` (`expect`). -/
theorem C6_amended :
    (∀ (st : WorldState) (rest : List UpdateEntry) (cam : PixelCamera) (tgt : RenderTarget),
      st.primaryWindow = none →
      update_viewport_size st
          ({ cam := cam, target := tgt, viewportCam := some ⟨.window .primary⟩ } :: rest) =
        (update_viewport_size st rest).map (fun p => (p.1, .skippedNoWindow :: p.2))) ∧
    (∀ (imgs : ImageAssets) (rest : List SmoothEntry) (cam : PixelCamera) (hdl : Nat),
      cam.smoothing = true → lookupImage imgs hdl = none →
      smooth_camera imgs ({ cam := cam, sprite := some hdl } :: rest) =
        (smooth_camera imgs rest).map (fun os => .skippedNoImage :: os)) := by
  constructor
  · intro st rest cam tgt hpw
    simp [update_viewport_size, resolveWindow, hpw]
  · intro imgs rest cam hdl hsm hlk
    simp [smooth_camera, hsm, hlk]

/-- C6 amended claim exercised: a camera pointing at a missing primary window
is skipped with `skippedNoWindow`, and a smoothing camera whose image asset
is gone is skipped with `skippedNoImage`. -/
theorem C6_amended_witness :
    update_viewport_size ⟨[], none, []⟩
        [{ cam := pf4Entry.cam, target := .image 0, viewportCam := some ⟨.window .primary⟩ }] =
      (update_viewport_size ⟨[], none, []⟩ []).map
        (fun p => (p.1, .skippedNoWindow :: p.2)) ∧
    smooth_camera [] [{ cam := pf4Entry.cam, sprite := some 3 }] =
      (smooth_camera [] []).map (fun os => .skippedNoImage :: os) :=
  ⟨C6_amended.1 ⟨[], none, []⟩ [] pf4Entry.cam (.image 0) rfl,
   C6_amended.2 [] [] pf4Entry.cam 3 rfl rfl⟩

/-- C7 counterexample: the claim says an error on one camera never aborts the
iteration over the remaining cameras, but a validation error in `init_camera`
executes `return`, so a perfectly valid camera queued after a misconfigured
one is left unprocessed for that pass (and, being an `Added` query, it is
never bound later either). -/
theorem C7_counterexample :
    init_camera [⟨800, 600⟩] [badOrderEntry, pf4Entry] =
      .ok [.configError, .unprocessed] ∧
    init_camera [⟨800, 600⟩] [pf4Entry] =
      .ok [.bound ⟨⟨202, 152, 1⟩, 1, .noColor, 200, 150⟩] := by
  constructor
  · simp [init_camera, initLoop, validateEntry, badOrderEntry]
  · have hc : ViewportSize.calculate (.pixelFixed 4) ⟨800, 600⟩ = some ⟨200, 150, 1⟩ := by
      norm_num [ViewportSize.calculate, ceilCast, U32MAX]
      exact ⟨by decide, by decide⟩
    simp [init_camera, initLoop, validateEntry, pf4Entry, mkBinding, hc,
          addSmoothingBorder, u32add, u32sub, U32LIM, ViewportSize.clear_color,
          RenderLayers.intersects, RenderLayers.layer, RenderLayers.noLayers,
          Except.map]

/-- C7 amended: only the handled per-camera errors of `update_viewport_size`
(here: the referenced viewport camera no longer exists) skip just that camera
while the rest of the pass continues. Two resize-time failures abort the
remaining cameras as well: a viewport camera with an unsupported
`TextureView` render target `return`s, leaving every remaining camera of that
pass unprocessed, and a viewport camera whose image render target is stale
(destroyed) panics via `.expect`, aborting the whole pass. In `init_camera`
a validation error likewise `return`s and every remaining camera of that pass
stays unprocessed. -/
theorem C7_amended :
    (∀ (st : WorldState) (rest : List UpdateEntry) (cam : PixelCamera) (tgt : RenderTarget),
      update_viewport_size st ({ cam := cam, target := tgt, viewportCam := none } :: rest) =
        (update_viewport_size st rest).map
          (fun p => (p.1, .skippedNoViewportCam :: p.2))) ∧
    (∀ (st : WorldState) (rest : List UpdateEntry) (cam : PixelCamera) (tgt : RenderTarget),
      update_viewport_size st
          ({ cam := cam, target := tgt, viewportCam := some ⟨.textureView⟩ } :: rest) =
        .ok (st, .abortedTextureView :: rest.map (fun _ => .notReached))) ∧
    (∀ (st : WorldState) (rest : List UpdateEntry) (cam : PixelCamera) (tgt : RenderTarget)
       (hdl : Nat), lookupImage st.images hdl = none →
      update_viewport_size st
          ({ cam := cam, target := tgt, viewportCam := some ⟨.image hdl⟩ } :: rest) =
        .error "panic: RenderTarget image does not exist") ∧
    (∀ (window : WindowResolution) (e : InitEntry) (rest : List InitEntry),
      validateEntry e = false →
      initLoop window (e :: rest) =
        .ok (.configError :: rest.map (fun _ => .unprocessed))) := by
  refine ⟨?_, ?_, ?_, ?_⟩
  · intro st rest cam tgt
    simp [update_viewport_size]
  · intro st rest cam tgt
    simp [update_viewport_size]
  · intro st rest cam tgt hdl hlk
    simp [update_viewport_size, hlk]
  · intro window e rest hv
    simp [initLoop, hv]

/-- C7 amended claim exercised: one skipped camera followed by a processed
pass tail in `update_viewport_size`; a `TextureView` viewport camera leaving
a trailing valid camera unreached; a stale viewport-camera image target
panicking with a trailing valid camera pending; and the aborting
`init_camera` pass. -/
theorem C7_amended_witness :
    update_viewport_size ⟨[], none, []⟩
        [{ cam := pf4Entry.cam, target := .image 0, viewportCam := none }] =
      (update_viewport_size ⟨[], none, []⟩ []).map
        (fun p => (p.1, .skippedNoViewportCam :: p.2)) ∧
    update_viewport_size ⟨[], none, []⟩
        [{ cam := pf4Entry.cam, target := .image 0, viewportCam := some ⟨.textureView⟩ },
         { cam := pf4Entry.cam, target := .image 0, viewportCam := none }] =
      .ok (⟨[], none, []⟩, .abortedTextureView ::
        ([{ cam := pf4Entry.cam, target := .image 0, viewportCam := none }] :
          List UpdateEntry).map (fun _ => .notReached)) ∧
    update_viewport_size ⟨[], none, []⟩
        [{ cam := pf4Entry.cam, target := .image 0, viewportCam := some ⟨.image 5⟩ },
         { cam := pf4Entry.cam, target := .image 0, viewportCam := none }] =
      .error "panic: RenderTarget image does not exist" ∧
    initLoop ⟨800, 600⟩ [badOrderEntry, pf4Entry] =
      .ok (.configError :: [pf4Entry].map (fun _ => .unprocessed)) :=
  ⟨C7_amended.1 ⟨[], none, []⟩ [] pf4Entry.cam (.image 0),
   C7_amended.2.1 ⟨[], none, []⟩
     [{ cam := pf4Entry.cam, target := .image 0, viewportCam := none }] pf4Entry.cam (.image 0),
   C7_amended.2.2.1 ⟨[], none, []⟩
     [{ cam := pf4Entry.cam, target := .image 0, viewportCam := none }] pf4Entry.cam (.image 0)
     5 rfl,
   C7_amended.2.2.2 ⟨800, 600⟩ badOrderEntry [pf4Entry] (by decide)⟩

/-- C8 counterexample: the claim says an empty render-layer mask always
yields a configuration error and no binding; but the empty-mask check only
runs when the world camera has no explicit `RenderLayers` component — with a
world camera on explicit layer 0 and an empty viewport mask, validation
passes and a full binding is created. -/
theorem C8_counterexample :
    init_camera [⟨800, 600⟩] [emptyLayerEntry] =
      .ok [.bound ⟨⟨202, 152, 1⟩, 1, .noColor, 200, 150⟩] := by
  have hc : ViewportSize.calculate (.pixelFixed 4) ⟨800, 600⟩ = some ⟨200, 150, 1⟩ := by
    norm_num [ViewportSize.calculate, ceilCast, U32MAX]
    exact ⟨by decide, by decide⟩
  simp [init_camera, initLoop, validateEntry, emptyLayerEntry, mkBinding, hc,
        addSmoothingBorder, u32add, u32sub, U32LIM, ViewportSize.clear_color,
        RenderLayers.intersects, RenderLayers.layer, RenderLayers.noLayers,
        Except.map]

/-- C8 amended: `init_camera` reports a configuration error and creates no
binding whenever (a) the viewport mask intersects the world camera's explicit
mask, or (b) the world camera has no explicit mask and the viewport mask
intersects layer 0 or is empty, or (c) the world camera's order is not
strictly below the viewport order; the empty-mask check fires only in case
(b), for cameras without an explicit world `RenderLayers` component. -/
theorem C8_amended (window : WindowResolution) (e : InitEntry)
    (h : (∃ wl, e.world_layer = some wl ∧
            RenderLayers.intersects wl e.cam.viewport_layer = true) ∨
         (e.world_layer = none ∧
           (RenderLayers.intersects e.cam.viewport_layer (RenderLayers.layer 0) = true ∨
            e.cam.viewport_layer = RenderLayers.noLayers)) ∨
         e.cam.viewport_order ≤ e.cameraOrder) :
    init_camera [window] [e] = .ok [.configError] := by
  have hv : validateEntry e = false := by
    unfold validateEntry
    rcases h with ⟨wl, hwl, hint⟩ | ⟨hnone, hca⟩ | ho
    · rw [hwl]
      simp [hint]
    · rw [hnone]
      rcases hca with h' | h'
      · simp [h']
      · simp [h']
    · have hd : decide (e.cameraOrder ≥ e.cam.viewport_order) = true := decide_eq_true ho
      simp [hd]
  simp [init_camera, initLoop, hv]

/-- C8 amended claim exercised: a viewport mask equal to the world camera's
explicit mask (layer 1) is rejected with a configuration error and no
binding. -/
theorem C8_amended_witness :
    init_camera [⟨800, 600⟩]
      [{ cam := { viewport_size := .pixelFixed 4, subpixel_pos := (0, 0), viewport_order := 1,
                  viewport_layer := RenderLayers.layer 1, smoothing := true },
         cameraOrder := 0, world_layer := some (RenderLayers.layer 1) }] =
      .ok [.configError] :=
  C8_amended ⟨800, 600⟩ _ (Or.inl ⟨RenderLayers.layer 1, rfl, by decide⟩)
